import Mathlib

/-!
Verification of the wallet storage engine of
`src/plasma/libraries/@graphene/wallet-client/src/WalletStorage.js`.

Shallow embedding conventions:
* Base64-encoded byte strings (ciphertexts, hashes) are represented by
  `String` (`B64`).  The source converts between `Buffer` and base64
  strings at several points; since the conversion is a bijection we keep
  every such value in its base64 form.
* The external crypto collaborators (spec section 6.2) are parameters: a
  `Crypto` record carries `sha256b64` (base64 of SHA-256 of the decoded
  bytes) and `encryptB64` (ciphertext, already base64, of a wallet object
  under a public key).  All theorems are proved for every `Crypto`.
* The ECC key objects are modelled representationally: a private key is
  its seed string, `toPublicKey` and `signBufferSha256` are injective
  taggings, exactly mirroring how the source only ever passes these
  values through to the external library.
* Stateful JavaScript methods become pure functions from the container
  state (plus the server responses they would receive) to the new state,
  a list of externally visible effects (encryption, transport calls,
  subscriber dispatch) and an `Except String` outcome whose error
  strings follow the messages thrown by the source.
* The `Immutable.Map` wallet object becomes an association-list tree
  (`JObj`/`JValue`); reference equality of persistent maps after a
  no-op merge is modelled by structural equality.
-/

deriving instance DecidableEq for Except

namespace WalletVerify

abbrev B64 := String

/-! ## JSON-like wallet object trees (Immutable.Map / fromJS values) -/

mutual

inductive JValue where
  | obj : JObj → JValue
  | arr : JArr → JValue
  | str : String → JValue
  | num : Int → JValue
  | jbool : Bool → JValue
  | null : JValue
deriving DecidableEq, Repr

inductive JObj where
  | nil : JObj
  | cons : String → JValue → JObj → JObj
deriving DecidableEq, Repr

inductive JArr where
  | anil : JArr
  | acons : JValue → JArr → JArr
deriving DecidableEq, Repr

end

/-- Association lookup in an object, mirroring `Immutable.Map.get`. -/
def JObj.find : JObj → String → Option JValue
  | .nil, _ => none
  | .cons k v rest, key => if k = key then some v else rest.find key

/-- Overwrite-or-append of a single key, mirroring `Immutable.Map.set`
and the shallow `Immutable.Map.merge` of scalar fields. -/
def JObj.setKey : JObj → String → JValue → JObj
  | .nil, k, v => .cons k v .nil
  | .cons k0 v0 rest, k, v =>
      if k0 = k then .cons k0 v rest else .cons k0 v0 (rest.setKey k v)

/-- Concatenation of two objects (the second holds fresh keys only when
used below). -/
def JObj.cat : JObj → JObj → JObj
  | .nil, b => b
  | .cons k v rest, b => .cons k v (rest.cat b)

/-- Entries of `b` whose key is absent from `a`; these are appended by a
deep merge. -/
def JObj.newEntries : JObj → JObj → JObj
  | _, .nil => .nil
  | a, .cons k v rest =>
      if (a.find k).isSome then a.newEntries rest else .cons k v (a.newEntries rest)

mutual

/-- Deep merge, mirroring `Immutable.mergeDeep`: maps merge recursively
on common keys, every other kind of value is overwritten by the second
argument. -/
def mergeDeep : JValue → JValue → JValue
  | .obj a, .obj b => .obj (mergeObj a b)
  | _, v => v

/-- Deep merge of two objects: keys of `a` are updated in place
(recursively when both sides hold a value), keys only in `b` are
appended. -/
def mergeObj (a b : JObj) : JObj :=
  (mergeOld a b).cat (a.newEntries b)

/-- Update pass over the existing entries of the first object. -/
def mergeOld : JObj → JObj → JObj
  | .nil, _ => .nil
  | .cons k v rest, b =>
      .cons k (match b.find k with
               | some w => mergeDeep v w
               | none => v) (mergeOld rest b)

end

/-! ## String helpers modelling the JavaScript primitives used -/

/-- Decides whether `p` is an initial segment of `s` (on character
lists; kernel-reducible). -/
def startsWithL : List Char → List Char → Bool
  | [], _ => true
  | _ :: _, [] => false
  | p :: ps, c :: cs => p == c && startsWithL ps cs

/-- Substring occurrence test on character lists. -/
def containsL (pat : List Char) : List Char → Bool
  | [] => startsWithL pat []
  | c :: rest => startsWithL pat (c :: rest) || containsL pat rest

/-- Substring test modelling a JavaScript alternation-free regex
`/pat/.test(s)`. -/
def containsSub (s pat : String) : Bool := containsL pat.data s.data

/-- Whitespace recognised by `String.prototype.trim` (the subset that
can occur in the inputs we consider). -/
def isSpaceChar (c : Char) : Bool := c == ' ' || c == '\t' || c == '\n' || c == '\r'

/-- Model of `String.prototype.trim`. -/
def jsTrim (s : String) : String :=
  ⟨((s.data.dropWhile isSpaceChar).reverse.dropWhile isSpaceChar).reverse⟩

/-- ASCII lower-casing of one character. -/
def lowerChar (c : Char) : Char :=
  if 'A' ≤ c ∧ c ≤ 'Z' then Char.ofNat (c.toNat + 32) else c

/-- Model of `String.prototype.toLowerCase` (ASCII). -/
def jsToLower (s : String) : String := ⟨s.data.map lowerChar⟩

/-- Test of the source's `/OK|No Content|Not Modified/` regex. -/
def statusOkNC (s : String) : Bool :=
  containsSub s "OK" || containsSub s "No Content" || containsSub s "Not Modified"

/-- Test of the source's `/OK|Not Modified/` regex. -/
def statusOkNM (s : String) : Bool :=
  containsSub s "OK" || containsSub s "Not Modified"

/-! ## External collaborators (spec section 6): crypto and keys -/

/-- Representational model of `PrivateKey` from the external ECC
library: the source only ever derives a key from a seed and passes it
through, so the seed itself is a faithful representation. -/
structure PrivateKey where
  seed : String
deriving DecidableEq, Repr

def PrivateKey.fromSeed (s : String) : PrivateKey := ⟨s⟩

/-- Public keys are modelled as the tagged seed (derivation is injective
and external). -/
def PrivateKey.toPublicKey (k : PrivateKey) : String := "PUB:" ++ k.seed

/-- Representational model of `Signature.signBufferSha256`: it records
which hash was signed by which key, which is all the engine ever
forwards to the transport. -/
structure Signature where
  hashb64 : B64
  signerSeed : String
deriving DecidableEq, Repr

def Signature.signBufferSha256 (h : B64) (k : PrivateKey) : Signature := ⟨h, k.seed⟩

/-- External crypto collaborators as parameters: `sha256b64 c` is the
base64 encoding of SHA-256 of the base64-decoded bytes of `c`;
`encryptB64 w pub` is the base64 ciphertext of wallet object `w` under
public key `pub`. -/
structure Crypto where
  sha256b64 : B64 → B64
  encryptB64 : JObj → String → B64

/-! ## Persisted storage state and runtime container state -/

/-- The flat persisted key/value state (file header, lines 35-62).  The
extra field `remote_updated` is not part of the documented schema: it
exists only because `changePassword`'s response handler (line 489)
writes that key. -/
structure StorageState where
  encrypted_wallet : Option B64
  remote_url : Option String
  remote_copy : Option Bool
  remote_token : Option String
  remote_hash : Option B64
  remote_created_date : Option String
  remote_updated_date : Option String
  remote_updated : Option String
deriving DecidableEq, Repr

/-- Runtime state of a `WalletStorage` container.  `hasApi` models
`this.api != null`, `hasSub` models a non-null
`getSubscriptionId("fetchWallet", old_public_key)`. -/
structure WalletState where
  storage : StorageState
  wallet_object : JObj
  private_key : Option PrivateKey
  remote_status : Option String
  local_status : Option String
  notify : Bool
  hasApi : Bool
  hasSub : Bool
deriving DecidableEq, Repr

/-- Externally visible effects of one operation, in order: encryption
runs, transport calls with their exact arguments, and subscriber
dispatch via `notifyResolve`. -/
inductive Effect where
  | encryptW (pub : String)
  | apiDeleteWallet (h : B64) (sig : Signature)
  | apiCreateWallet (code : String) (data : B64) (sig : Signature)
  | apiSaveWallet (prevHash : B64) (data : B64) (sig : Signature)
  | apiChangePassword (h : B64) (hsig : Signature) (data : B64) (dsig : Signature)
  | apiUnsubscribe (pub : String)
  | dispatchNotify
deriving DecidableEq, Repr

/-- Model of the free function `localHash` (lines 801-805): SHA-256 of
the decoded persisted ciphertext, kept in base64 form, or `none`. -/
def localHash (C : Crypto) (s : StorageState) : Option B64 :=
  match s.encrypted_wallet with
  | none => none
  | some ew => some (C.sha256b64 ew)

/-! ## The fetch handler (free function `fetchWallet`, lines 548-632) -/

/-- The record delivered by `api.fetchWallet` callbacks. -/
structure ServerWallet where
  statusText : Option String
  local_hash : Option B64
  encrypted_data : Option B64
  created : Option String
  updated : Option String
deriving DecidableEq, Repr

/-- Reconciliation action chosen by the fetch handler; the handler
returns before the action's own transport work runs, so the action is
data here.  `pushThenNotModified` and `pullThenNotModified` carry the
`.then(() => remote_status = "Not Modified")` continuations of lines
594, 597 and 628; `push` is the bare `updateWallet` of line 624. -/
inductive FetchAction where
  | deleteRemote (h : B64)
  | done
  | pushThenNotModified
  | push
  | pullThenNotModified
deriving DecidableEq, Repr

/-- Status synthesis of lines 562-570: an absent (or empty, JavaScript
falsy) `statusText` is replaced by `"No Content"` when the server hash
is null, `"Not Modified"` when the local hash equals it, `"OK"`
otherwise. -/
def effectiveStatus (local_hash new_hash : Option B64) (given : Option String) : String :=
  let g := given.getD ""
  if g = "" then
    if new_hash = none then "No Content"
    else if local_hash = new_hash then "Not Modified"
    else "OK"
  else g

/-- Decision core of the fetch handler on the scalar values it reads,
lines 572-631: given the local ciphertext hash, whether a local
ciphertext exists, the previously persisted remote hash (`old_hash`),
the server hash (`new_hash`), the current `remote_status` and `notify`
flags, the persisted `remote_copy` intent and the effective status
text, it returns the updated `remote_status`, the updated `notify`
flag, and the chosen action (or the thrown error).  Lines 576-579
update `remote_status`/`notify` only when the status changed, which is
the `rs`/`nf` pair below; the handler's storage mutation (line 559) and
the state assembly live in `fetchCore`. -/
def fetchDecide (local_hash : Option B64) (has_local : Bool) (old_hash new_hash : Option B64)
    (remote_status0 : Option String) (notify0 : Bool) (remote_copy : Option Bool)
    (statusText : String) : Option String × Bool × Except String FetchAction :=
  if statusOkNC statusText = false then
    (remote_status0, notify0, .error ("Invalid status: " ++ statusText))
  else
    let rs : Option String := some statusText
    let nf : Bool := if remote_status0 = some statusText then notify0 else true
    if new_hash.isSome = true ∧ remote_copy = some false then
      (rs, true, .ok (.deleteRemote (new_hash.getD "")))
    else if new_hash.isSome = false ∧ has_local = false then
      if containsSub statusText "No Content" then (rs, nf, .ok .done)
      else (rs, nf, .error "No Content")
    else if new_hash.isSome = false then (rs, true, .ok .pushThenNotModified)
    else if has_local = false then (rs, true, .ok .pullThenNotModified)
    else if local_hash = new_hash then (rs, true, .ok .done)
    else if local_hash ≠ old_hash ∧ old_hash ≠ new_hash then
      (some "Conflict", true, .error "Conflict, both server and local wallet modified")
    else if local_hash ≠ old_hash then (rs, true, .ok .push)
    else if old_hash ≠ new_hash then (rs, true, .ok .pullThenNotModified)
    else if old_hash = new_hash then (rs, true, .ok .done)
    else (rs, true, .error "Conflict")

/-- Core of the fetch handler after status synthesis, lines 550-631.
`remote_hash := new_hash` is persisted up front (line 559); the
returned state reflects every mutation of `this` performed before the
handler hands over to the chosen action (errors carry the mutated
state, as a JavaScript `throw` would leave it). -/
def fetchCore (C : Crypto) (st : WalletState) (new_hash : Option B64) (statusText : String) :
    WalletState × Except String FetchAction :=
  let d := fetchDecide (localHash C st.storage) st.storage.encrypted_wallet.isSome
             st.storage.remote_hash new_hash st.remote_status st.notify
             st.storage.remote_copy statusText
  ({ st with storage := { st.storage with remote_hash := new_hash },
             remote_status := d.1, notify := d.2.1 },
   d.2.2)

/-- The fetch handler: persists `remote_hash := server hash` up front
(inside `fetchCore`), synthesizes a missing `statusText`, then decides
the reconciliation action. -/
def fetchWallet (C : Crypto) (st : WalletState) (sw : ServerWallet) :
    WalletState × Except String FetchAction :=
  fetchCore C st sw.local_hash
    (effectiveStatus (localHash C st.storage) sw.local_hash sw.statusText)

/-! ## `updateWallet` (free function, lines 671-759) -/

/-- Response of `api.createWallet`. -/
structure CreateResponse where
  local_hash : Option B64
  created : Option String
deriving DecidableEq, Repr

/-- Response of `api.saveWallet` (and, same shape, of
`api.changePassword`). -/
structure SaveResponse where
  statusText : String
  local_hash : Option B64
  updated : Option String
deriving DecidableEq, Repr

/-- Model of `updateWallet`: encrypt the in-memory tree, persist the
ciphertext, then create or save the server copy.  The transport
responses the source would receive are inputs (`cr` for the create
path, `sr` for the save path); error strings follow the thrown
messages and assertion labels of lines 673-753. -/
def updateWallet (C : Crypto) (st : WalletState) (pk? : Option PrivateKey)
    (cr : CreateResponse) (sr : SaveResponse) :
    WalletState × List Effect × Except String Unit :=
  match pk?.orElse (fun _ => st.private_key) with
  | none => (st, [], .error "Wallet is locked")
  | some pk =>
    let public_key := pk.toPublicKey
    let remote_copy := st.storage.remote_copy
    let code := st.storage.remote_token
    let encrypted_data := C.encryptB64 st.wallet_object public_key
    let st1 := { st with
      storage := { st.storage with encrypted_wallet := some encrypted_data },
      local_status := none, notify := true }
    let effs := [Effect.encryptW public_key]
    if st.hasApi = false ∨ remote_copy ≠ some true then (st1, effs, .ok ())
    else if code = none ∧ st.remote_status = some "No Content" then (st1, effs, .ok ())
    else
      let local_hash := C.sha256b64 encrypted_data
      let signature := Signature.signBufferSha256 local_hash pk
      let remote_hash := st1.storage.remote_hash
      if code.isSome ∧ remote_hash = none then
        if st.remote_status ≠ some "No Content" then (st1, effs, .error "remote_status")
        else
          let effs := effs ++ [Effect.apiCreateWallet (code.getD "") encrypted_data signature]
          if cr.local_hash ≠ some local_hash then (st1, effs, .error "local_hash")
          else match cr.created with
          | none => (st1, effs, .error "created")
          | some crd =>
            if crd = "" then (st1, effs, .error "created")
            else
              ({ st1 with
                  storage := { st1.storage with
                    remote_token := none, remote_hash := some local_hash,
                    remote_created_date := some crd, remote_updated_date := some crd },
                  remote_status := some "Not Modified", notify := true },
               effs, .ok ())
      else
        match remote_hash with
        | none =>
            (st1, effs,
             .error "Can't update the server wallet.  A remote token may be required to create the wallet.")
        | some rh =>
          if (match st.remote_status with
              | some s => statusOkNM s
              | none => false) = false then
            (st1, effs, .error "remote_status")
          else
            let effs := effs ++ [Effect.apiSaveWallet rh encrypted_data signature]
            if sr.statusText = "OK" then
              if sr.local_hash ≠ some local_hash then (st1, effs, .error "local_hash")
              else match sr.updated with
              | none => (st1, effs, .error "updated")
              | some up =>
                if up = "" then (st1, effs, .error "updated")
                else
                  ({ st1 with
                      storage := { st1.storage with
                        remote_hash := some local_hash, remote_updated_date := some up },
                      remote_status := some "Not Modified", notify := true },
                   effs, .ok ())
            else
              ({ st1 with remote_status := some sr.statusText, notify := true },
               effs, .error ("Unexpected WalletApi.saveWallet status: " ++ sr.statusText))

/-! ## `setState` (method, lines 353-379) -/

/-- Model of `setState`: locked and not-initialized guards, deep merge,
no-op on an unchanged tree, otherwise stamp `last_modified`, mark
`Pending` and run `updateWallet`; `notifyResolve` wraps the returned
promise (dispatch fires on resolution and on rejection alike, modelled
by the trailing `dispatchNotify` effect). -/
def setState (C : Crypto) (st : WalletState) (x : JObj) (now : String)
    (cr : CreateResponse) (sr : SaveResponse) :
    WalletState × List Effect × Except String Unit :=
  match st.private_key with
  | none => (st, [], .error "wallet_locked")
  | some _pk =>
    if (st.wallet_object.find "created").isSome = false then
      (st, [], .error "Login to create wallet")
    else
      let merged := mergeObj st.wallet_object x
      if merged = st.wallet_object then (st, [], .ok ())
      else
        let st1 := { st with
          notify := true, local_status := some "Pending",
          wallet_object := merged.setKey "last_modified" (.str now) }
        let r := updateWallet C st1 none cr sr
        (r.1, r.2.1 ++ [Effect.dispatchNotify], r.2.2)

/-! ## `deleteRemoteWallet` (free function, lines 634-648) -/

/-- Model of `deleteRemoteWallet`: sign the hash (defaulting to the
current local ciphertext hash), call `api.deleteWallet`, and on success
clear `remote_hash`, `remote_created_date` and `remote_updated_date`
(the storage contract deletes fields written as `undefined`).  `ok`
carries whether the transport call succeeds.  A `none` resolved hash
would crash the source's `Buffer` constructor and is surfaced as an
error. -/
def deleteRemoteWallet (C : Crypto) (st : WalletState) (pk : PrivateKey)
    (hash? : Option B64) (ok : Bool) :
    WalletState × List Effect × Except String Unit :=
  match hash?.orElse (fun _ => localHash C st.storage) with
  | none => (st, [], .error "hash_required")
  | some h =>
    let signature := Signature.signBufferSha256 h pk
    let effs := [Effect.apiDeleteWallet h signature]
    if ok then
      ({ st with
          notify := true,
          storage := { st.storage with
                       remote_hash := none,
                       remote_created_date := none, remote_updated_date := none } },
       effs, .ok ())
    else (st, effs, .error "delete_failed")

/-! ## `changePassword` (method, lines 415-497) -/

/-- Response of `api.changePassword`. -/
structure CPResponse where
  statusText : String
  local_hash : Option B64
  updated : Option String
deriving DecidableEq, Repr

/-- Model of `changePassword`, parameterized by how line 473's
`old_private_key` is resolved.  With `fixedBinding = false` the model is
faithful to the source, where `old_private_key` is not defined anywhere
and the remote path therefore raises a `ReferenceError` inside the
encryption continuation (after the local ciphertext has already been
replaced, before any transport call).  With `fixedBinding = true` the
binding is the pre-rotation `this.private_key`, which is the intent the
specification records for this line; this variant exists to examine the
response handling of lines 480-492. -/
def changePasswordGen (fixedBinding : Bool) (C : Crypto) (st : WalletState)
    (password? : Option String) (email username : String) (now : String)
    (resp : CPResponse) :
    WalletState × List Effect × Except String Unit :=
  match password? with
  | none => (st, [], .error "password_required")
  | some password =>
  match st.private_key with
  | none => (st, [], .error "Wallet is locked")
  | some pk =>
  match st.storage.encrypted_wallet with
  | none => (st, [], .error "wallet_empty")
  | some _ew =>
  let new_private_key := PrivateKey.fromSeed
    (jsToLower (jsTrim email) ++ "\t" ++ jsToLower (jsTrim username) ++ "\t" ++ password)
  let weak_password := (jsTrim email = "" ∨ jsTrim username = "")
  if weak_password ∧ st.storage.remote_copy = some true then
    (st, [],
     .error "Remote copies are enabled, but an email or username is missing from this wallet's encryption key.")
  else
  let old_public_key := pk.toPublicKey
  let original_local_hash := (localHash C st.storage).getD ""
  let remote_copy := st.storage.remote_copy
  if remote_copy = some true ∧ some original_local_hash ≠ st.storage.remote_hash then
    (st, [],
     .error "wallet_modified: Can't change password, this wallet has a remote copy that has not been updated")
  else
  let new_public_key := new_private_key.toPublicKey
  let w1 := (st.wallet_object.setKey "last_modified" (.str now)).setKey
              "weak_password" (.jbool (decide weak_password))
  let encrypted_data := C.encryptB64 w1 new_public_key
  let st1 := { st with
    wallet_object := w1,
    storage := { st.storage with encrypted_wallet := some encrypted_data },
    local_status := none, notify := true }
  let effs := [Effect.encryptW new_public_key]
  if st.hasApi = false ∨ remote_copy ≠ some true then
    ({ st1 with private_key := some new_private_key },
     effs ++ [Effect.dispatchNotify], .ok ())
  else
  let effs := effs ++ (if st.hasSub then [Effect.apiUnsubscribe old_public_key] else [])
  if fixedBinding = false then
    (st1, effs, .error "ReferenceError: old_private_key is not defined")
  else
  let original_signature := Signature.signBufferSha256 original_local_hash pk
  let new_local_hash := (localHash C st1.storage).getD ""
  let new_signature := Signature.signBufferSha256 new_local_hash new_private_key
  let effs := effs ++ [Effect.apiChangePassword original_local_hash original_signature
                         encrypted_data new_signature]
  let st2 := { st1 with private_key := some new_private_key }
  if resp.statusText ≠ "OK" then
    (st2, effs ++ [Effect.dispatchNotify], .error ("rejected: " ++ resp.statusText))
  else match resp.local_hash with
  | none => (st2, effs ++ [Effect.dispatchNotify], .error "local_hash")
  | some jh =>
    if jh = "" then (st2, effs ++ [Effect.dispatchNotify], .error "local_hash")
    else match resp.updated with
    | none => (st2, effs ++ [Effect.dispatchNotify], .error "updated")
    | some ju =>
      if ju = "" then (st2, effs ++ [Effect.dispatchNotify], .error "updated")
      else
        ({ st2 with
            storage := { st2.storage with remote_hash := some jh, remote_updated := some ju },
            notify := true },
         effs ++ [Effect.dispatchNotify], .ok ())

/-- The method as written in the source (`old_private_key` unbound). -/
def changePassword (C : Crypto) (st : WalletState) (password? : Option String)
    (email username now : String) (resp : CPResponse) :
    WalletState × List Effect × Except String Unit :=
  changePasswordGen false C st password? email username now resp

/-- The method under the binding the specification states as the
intent of line 473 (`old_private_key` is the pre-rotation
`this.private_key`). -/
def changePasswordIntended (C : Crypto) (st : WalletState) (password? : Option String)
    (email username now : String) (resp : CPResponse) :
    WalletState × List Effect × Except String Unit :=
  changePasswordGen true C st password? email username now resp

/-! ## Concrete instances used by witnesses and counterexamples -/

/-- Concrete crypto instance for witnesses: injective taggings stand in
for the external SHA-256 and encryption. -/
def wCrypto : Crypto where
  sha256b64 := fun s => "#" ++ s
  encryptB64 := fun _ p => "E." ++ p

/-- Concrete container state for the C2 witness. -/
def c2State : WalletState where
  storage := { encrypted_wallet := some "W2", remote_url := some "u",
               remote_copy := some true, remote_token := none,
               remote_hash := some "#W2", remote_created_date := none,
               remote_updated_date := none, remote_updated := none }
  wallet_object := .nil
  private_key := some ⟨"k"⟩
  remote_status := some "Not Modified"
  local_status := none
  notify := false
  hasApi := true
  hasSub := true

/-- Concrete push subscription event (no `statusText`) for the C2
witness. -/
def c2SW : ServerWallet where
  statusText := none
  local_hash := some "#W2"
  encrypted_data := none
  created := none
  updated := none

/-- Concrete state refuting C1 as stated: local wallet present,
`remote_copy = true`, server hash non-null, and both `local_mod` and
`server_mod` hold because the local hash (`#W`) differs from the
previously persisted remote hash (`old`) — yet the local hash equals
the server hash, so the handler no-ops (line 601) instead of declaring
a conflict. -/
def c1State : WalletState where
  storage := { encrypted_wallet := some "W", remote_url := some "u",
               remote_copy := some true, remote_token := none,
               remote_hash := some "old", remote_created_date := none,
               remote_updated_date := none, remote_updated := none }
  wallet_object := .nil
  private_key := some ⟨"k"⟩
  remote_status := some "Not Modified"
  local_status := none
  notify := false
  hasApi := true
  hasSub := true

/-- Server record for the C1 counterexample: reports hash `#W`, equal
to the local ciphertext hash. -/
def c1SW : ServerWallet where
  statusText := some "OK"
  local_hash := some "#W"
  encrypted_data := some "D"
  created := none
  updated := none

/-- Concrete state for the C1 witness: local hash `#W`, previously
known remote hash `old`, server hash `new` — all three distinct. -/
def c1wState : WalletState where
  storage := { encrypted_wallet := some "W", remote_url := some "u",
               remote_copy := some true, remote_token := none,
               remote_hash := some "old", remote_created_date := none,
               remote_updated_date := none, remote_updated := none }
  wallet_object := .nil
  private_key := some ⟨"k"⟩
  remote_status := some "Not Modified"
  local_status := none
  notify := false
  hasApi := true
  hasSub := true

/-- Server record for the C1 witness. -/
def c1wSW : ServerWallet where
  statusText := some "OK"
  local_hash := some "new"
  encrypted_data := some "D"
  created := none
  updated := none

/-- Fixture create-response used where the claim does not touch the
transport. -/
def anyCR : CreateResponse where
  local_hash := none
  created := none

/-- Fixture save-response used where the claim does not touch the
transport. -/
def anySR : SaveResponse where
  statusText := "OK"
  local_hash := none
  updated := none

/-- Concrete initialized, unlocked container for the C7 witness. -/
def c7State : WalletState where
  storage := { encrypted_wallet := some "W", remote_url := none,
               remote_copy := none, remote_token := none,
               remote_hash := none, remote_created_date := none,
               remote_updated_date := none, remote_updated := none }
  wallet_object := .cons "created" (.str "2015-01-01") (.cons "k" (.num 1) .nil)
  private_key := some ⟨"k"⟩
  remote_status := none
  local_status := none
  notify := false
  hasApi := false
  hasSub := false

/-- Concrete locked container for the C8 witness. -/
def c8State : WalletState where
  storage := { encrypted_wallet := some "W", remote_url := none,
               remote_copy := none, remote_token := none,
               remote_hash := none, remote_created_date := none,
               remote_updated_date := none, remote_updated := none }
  wallet_object := .cons "created" (.str "2015-01-01") .nil
  private_key := none
  remote_status := none
  local_status := none
  notify := false
  hasApi := false
  hasSub := false

/-- Concrete synced container for the C9 witness. -/
def c9State : WalletState where
  storage := { encrypted_wallet := some "W9", remote_url := some "u",
               remote_copy := some false, remote_token := none,
               remote_hash := some "#W9", remote_created_date := some "2015-01-01",
               remote_updated_date := some "2015-01-02", remote_updated := none }
  wallet_object := .nil
  private_key := some ⟨"k"⟩
  remote_status := some "Not Modified"
  local_status := none
  notify := false
  hasApi := true
  hasSub := true

/-- Fixture response used where the claim does not reach the
transport. -/
def anyCP : CPResponse where
  statusText := "OK"
  local_hash := none
  updated := none

/-- Concrete unlocked offline container for the C10 witness. -/
def c10State : WalletState where
  storage := { encrypted_wallet := some "W10", remote_url := none,
               remote_copy := some false, remote_token := none,
               remote_hash := none, remote_created_date := none,
               remote_updated_date := none, remote_updated := none }
  wallet_object := .cons "created" (.str "2015-01-01") .nil
  private_key := some ⟨"old-seed"⟩
  remote_status := none
  local_status := none
  notify := false
  hasApi := false
  hasSub := false

/-- Concrete container refuting C4 as stated: unlocked, local
ciphertext persisted, `remote_copy = true` and a stale `remote_hash` —
yet a password-only call fails with the weak-password error, not
`wallet_modified`. -/
def c4State : WalletState where
  storage := { encrypted_wallet := some "W4", remote_url := some "u",
               remote_copy := some true, remote_token := none,
               remote_hash := some "STALE", remote_created_date := none,
               remote_updated_date := none, remote_updated := none }
  wallet_object := .cons "created" (.str "2015-01-01") .nil
  private_key := some ⟨"old-seed"⟩
  remote_status := some "Not Modified"
  local_status := none
  notify := false
  hasApi := true
  hasSub := true

/-- Concrete container for C5/C6/C3: unlocked, synced
(`remote_hash = #W5` is the hash of the persisted ciphertext `W5`),
`remote_copy = true`, transport present. -/
def c5State : WalletState where
  storage := { encrypted_wallet := some "W5", remote_url := some "u",
               remote_copy := some true, remote_token := none,
               remote_hash := some "#W5", remote_created_date := some "2015-01-01",
               remote_updated_date := some "2015-01-02", remote_updated := none }
  wallet_object := .cons "created" (.str "2015-01-01") .nil
  private_key := some ⟨"old-seed"⟩
  remote_status := some "Not Modified"
  local_status := none
  notify := false
  hasApi := true
  hasSub := false

/-- Response of a change-password acknowledged `"OK"` whose
`local_hash` echoes something other than the uploaded ciphertext's
hash. -/
def c3Resp : CPResponse where
  statusText := "OK"
  local_hash := some "BOGUS"
  updated := some "2016-02-02"

/-- Response with status `"OK"` for C6. -/
def c6Resp : CPResponse where
  statusText := "OK"
  local_hash := some "NH"
  updated := some "2016-02-02"

/-! ## Helper lemmas -/

/-- Whatever branch the fetch handler takes (including every thrown
error), the state it hands over carries `remote_hash = new_hash`: the
persist of line 559 happens before anything else. -/
theorem fetchCore_remote_hash (C : Crypto) (st : WalletState) (nh : Option B64) (s : String) :
    (fetchCore C st nh s).1.storage.remote_hash = nh := rfl

/-- Synthesizing the missing status and feeding it back as a given
status yields the same effective status. -/
theorem effectiveStatus_some_synth (lh nh : Option B64) :
    effectiveStatus lh nh
      (some (if nh = none then "No Content"
             else if lh = nh then "Not Modified" else "OK"))
      = effectiveStatus lh nh none := by
  unfold effectiveStatus
  by_cases h1 : nh = none <;> by_cases h2 : lh = nh <;> simp [h1, h2]

/-! ## C2: the fetch handler persists the server hash up front and
synthesizes a missing status -/

/-- C2: for every fetch-handler invocation the state handed to the
chosen reconciliation action already has `remote_hash` = the
server-reported hash; and when the incoming record has no
`status_text` (a push subscription event) the handler behaves exactly
as if the server had sent `"No Content"` when its hash is null,
`"Not Modified"` when the local ciphertext hash equals it, and `"OK"`
otherwise. -/
theorem C2_fetch_persists_hash_and_synthesizes_status
    (C : Crypto) (st : WalletState) (sw : ServerWallet) :
    (fetchWallet C st sw).1.storage.remote_hash = sw.local_hash
  ∧ (sw.statusText = none →
      fetchWallet C st sw = fetchWallet C st
        { sw with statusText := some (
            if sw.local_hash = none then "No Content"
            else if localHash C st.storage = sw.local_hash then "Not Modified"
            else "OK") }) := by
  refine ⟨fetchCore_remote_hash C st sw.local_hash _, fun h => ?_⟩
  show fetchCore C st sw.local_hash
        (effectiveStatus (localHash C st.storage) sw.local_hash sw.statusText)
     = fetchCore C st sw.local_hash
        (effectiveStatus (localHash C st.storage) sw.local_hash (some _))
  rw [h, effectiveStatus_some_synth]

/-- Witness for C2 at a concrete push event. -/
theorem C2_witness :
    (fetchWallet wCrypto c2State c2SW).1.storage.remote_hash = c2SW.local_hash
  ∧ fetchWallet wCrypto c2State c2SW = fetchWallet wCrypto c2State
      { c2SW with statusText := some (
          if c2SW.local_hash = none then "No Content"
          else if localHash wCrypto c2State.storage = c2SW.local_hash then "Not Modified"
          else "OK") } :=
  ⟨(C2_fetch_persists_hash_and_synthesizes_status wCrypto c2State c2SW).1,
   (C2_fetch_persists_hash_and_synthesizes_status wCrypto c2State c2SW).2 rfl⟩

/-! ## C1: the conflict row of the decision table -/

/-- C1 counterexample: at this input the server reports a wallet,
`remote_copy` is true, a local ciphertext is persisted, and both
`local_mod` and `server_mod` hold — but the handler returns the no-op
action and does not set `remote_status` to `"Conflict"`, refuting the
claim as stated. -/
theorem C1_counterexample :
    (c1SW.local_hash ≠ none
      ∧ c1State.storage.remote_copy = some true
      ∧ c1State.storage.encrypted_wallet ≠ none
      ∧ localHash wCrypto c1State.storage ≠ c1State.storage.remote_hash
      ∧ c1State.storage.remote_hash ≠ c1SW.local_hash)
    ∧ (fetchWallet wCrypto c1State c1SW).2 = Except.ok FetchAction.done
    ∧ (fetchWallet wCrypto c1State c1SW).1.remote_status ≠ some "Conflict" := by
  decide

/-- C1 as amended: when additionally the local ciphertext hash differs
from the server hash (and the effective status passes the handler's
assertion, which is automatic for synthesized statuses), the handler
throws the conflict error, sets `remote_status := "Conflict"`, and
performs neither a push nor a pull (the error outcome carries no
action). -/
theorem C1_conflict (C : Crypto) (st : WalletState) (sw : ServerWallet)
    (hl : st.storage.encrypted_wallet.isSome = true)
    (hr : sw.local_hash.isSome = true)
    (hc : st.storage.remote_copy = some true)
    (hv : statusOkNC (effectiveStatus (localHash C st.storage) sw.local_hash sw.statusText)
            = true)
    (hlm : localHash C st.storage ≠ st.storage.remote_hash)
    (hsm : st.storage.remote_hash ≠ sw.local_hash)
    (hln : localHash C st.storage ≠ sw.local_hash) :
    (fetchWallet C st sw).2
        = Except.error "Conflict, both server and local wallet modified"
  ∧ (fetchWallet C st sw).1.remote_status = some "Conflict" := by
  have hd : fetchDecide (localHash C st.storage) st.storage.encrypted_wallet.isSome
      st.storage.remote_hash sw.local_hash st.remote_status st.notify
      st.storage.remote_copy
      (effectiveStatus (localHash C st.storage) sw.local_hash sw.statusText)
      = (some "Conflict", true,
         .error "Conflict, both server and local wallet modified") := by
    unfold fetchDecide
    simp [hv, hl, hr, hc, hlm, hsm, hln]
  constructor
  · show (fetchCore C st sw.local_hash _).2 = _
    simp only [fetchCore, hd]
  · show (fetchCore C st sw.local_hash _).1.remote_status = _
    simp only [fetchCore, hd]

/-- Witness for the amended C1 at a concrete conflicting input. -/
theorem C1_conflict_witness :
    (fetchWallet wCrypto c1wState c1wSW).2
        = Except.error "Conflict, both server and local wallet modified"
  ∧ (fetchWallet wCrypto c1wState c1wSW).1.remote_status = some "Conflict" :=
  C1_conflict wCrypto c1wState c1wSW (by decide) (by decide) (by decide)
    (by decide) (by decide) (by decide) (by decide)

/-! ## C7 and C8: `setState` no-op and locked guard -/

/-- C7: for an unlocked, initialized container, when the deep merge of
the argument into the current tree yields the prior tree, `setState`
is a complete no-op: the state (including `last_modified` inside the
tree, `local_status` and the `notify` flag) is returned unchanged, no
effect runs (so `updateWallet` is not invoked and no subscriber
notification fires), and the call resolves.  Consequently a second
`setState` with the same argument notifies only if its merge changed
the tree. -/
theorem C7_setState_noop (C : Crypto) (st : WalletState) (x : JObj) (now : String)
    (cr : CreateResponse) (sr : SaveResponse) (pk : PrivateKey)
    (hpk : st.private_key = some pk)
    (hinit : (st.wallet_object.find "created").isSome = true)
    (hmerge : mergeObj st.wallet_object x = st.wallet_object) :
    setState C st x now cr sr = (st, [], Except.ok ()) := by
  simp [setState, hpk, hinit, hmerge]

/-- Witness for C7: merging the tree into itself changes nothing and
`setState` is a no-op. -/
theorem C7_witness :
    setState wCrypto c7State c7State.wallet_object "2016-01-01" anyCR anySR
      = (c7State, [], Except.ok ()) :=
  C7_setState_noop wCrypto c7State c7State.wallet_object "2016-01-01" anyCR anySR
    ⟨"k"⟩ (by decide) (by decide)
    (by simp [c7State, mergeObj, mergeOld, mergeDeep, JObj.newEntries, JObj.find, JObj.cat])

/-- C8: `setState` on a locked container throws `wallet_locked`
synchronously, before any mutation: the state (storage, tree, statuses
and the notify flag) is returned unchanged and no effect — in
particular no subscriber notification — occurs. -/
theorem C8_setState_locked (C : Crypto) (st : WalletState) (x : JObj) (now : String)
    (cr : CreateResponse) (sr : SaveResponse)
    (h : st.private_key = none) :
    setState C st x now cr sr = (st, [], Except.error "wallet_locked") := by
  simp [setState, h]

/-- Witness for C8 at a concrete locked container. -/
theorem C8_witness :
    setState wCrypto c8State (.cons "k" (.num 2) .nil) "2016-01-01" anyCR anySR
      = (c8State, [], Except.error "wallet_locked") :=
  C8_setState_locked wCrypto c8State (.cons "k" (.num 2) .nil) "2016-01-01"
    anyCR anySR (by decide)

/-! ## C9: `deleteRemoteWallet` signs, invokes and clears exactly the
three remote bookkeeping fields -/

/-- C9: `deleteRemoteWallet` signs the given hash (defaulting to the
current local ciphertext hash), invokes the transport's `deleteWallet`
with that hash and signature, and on success clears exactly
`remote_hash`, `remote_created_date` and `remote_updated_date` — the
resulting storage is the old storage with only those three fields
removed, so `encrypted_wallet` and every other field is unchanged. -/
theorem C9_deleteRemoteWallet (C : Crypto) (st : WalletState) (pk : PrivateKey)
    (hash? : Option B64) (h : B64)
    (hh : hash?.orElse (fun _ => localHash C st.storage) = some h) :
    deleteRemoteWallet C st pk hash? true
      = ({ st with
            notify := true,
            storage := { st.storage with
                         remote_hash := none,
                         remote_created_date := none, remote_updated_date := none } },
         [Effect.apiDeleteWallet h (Signature.signBufferSha256 h pk)],
         Except.ok ()) := by
  simp [deleteRemoteWallet, hh]

/-- Witness for C9 with the defaulted hash (the local ciphertext
hash). -/
theorem C9_witness :
    deleteRemoteWallet wCrypto c9State ⟨"k"⟩ none true
      = ({ c9State with
            notify := true,
            storage := { c9State.storage with
                         remote_hash := none,
                         remote_created_date := none, remote_updated_date := none } },
         [Effect.apiDeleteWallet "#W9" (Signature.signBufferSha256 "#W9" ⟨"k"⟩)],
         Except.ok ()) :=
  C9_deleteRemoteWallet wCrypto c9State ⟨"k"⟩ none "#W9" (by decide)

/-! ## C10, C4, C5, C6, C3: `changePassword` -/

/-- Setting a key and looking it up yields the value set. -/
theorem JObj.find_setKey_same (o : JObj) (k : String) (v : JValue) :
    (o.setKey k v).find k = some v := by
  match o with
  | .nil => simp [JObj.setKey, JObj.find]
  | .cons k0 v0 rest =>
      by_cases h : k0 = k <;>
        simp [JObj.setKey, JObj.find, h, JObj.find_setKey_same rest k v]

/-- C10: `changePassword` called with only a password (email and
username defaulting to the empty string) derives the new key from the
seed `"\t\t" + password`, records `weak_password = true` in the wallet
object, and succeeds whenever the persisted `remote_copy` is not
`true`. -/
theorem C10_changePassword_password_only (C : Crypto) (st : WalletState)
    (password now : String) (resp : CPResponse) (pk : PrivateKey) (ew : B64)
    (hpk : st.private_key = some pk)
    (hew : st.storage.encrypted_wallet = some ew)
    (hrc : st.storage.remote_copy ≠ some true) :
    (changePassword C st (some password) "" "" now resp).2.2 = Except.ok ()
  ∧ (changePassword C st (some password) "" "" now resp).1.private_key
      = some (PrivateKey.fromSeed ("\t\t" ++ password))
  ∧ ((changePassword C st (some password) "" "" now resp).1.wallet_object.find
        "weak_password")
      = some (JValue.jbool true) := by
  refine ⟨?_, ?_, ?_⟩ <;>
    simp [changePassword, changePasswordGen, hpk, hew, hrc, JObj.find_setKey_same] <;>
    rfl

/-- Witness for C10 at a concrete password-only call. -/
theorem C10_witness :
    (changePassword wCrypto c10State (some "pw") "" "" "2016-01-01" anyCP).2.2
        = Except.ok ()
  ∧ (changePassword wCrypto c10State (some "pw") "" "" "2016-01-01" anyCP).1.private_key
      = some (PrivateKey.fromSeed ("\t\t" ++ "pw"))
  ∧ ((changePassword wCrypto c10State (some "pw") "" "" "2016-01-01" anyCP).1.wallet_object.find
        "weak_password")
      = some (JValue.jbool true) :=
  C10_changePassword_password_only wCrypto c10State "pw" "2016-01-01" anyCP
    ⟨"old-seed"⟩ "W10" (by decide) (by decide) (by decide)

/-- C4 counterexample: the claim's premise holds (unlocked, persisted
ciphertext, `remote_copy = true`, `remote_hash` differs from the
pre-change local hash), but the invocation with empty email/username
fails with the weak-password assertion of line 431, not with
`wallet_modified`. -/
theorem C4_counterexample :
    (c4State.private_key ≠ none
      ∧ c4State.storage.encrypted_wallet ≠ none
      ∧ c4State.storage.remote_copy = some true
      ∧ some ((localHash wCrypto c4State.storage).getD "")
          ≠ c4State.storage.remote_hash)
    ∧ (changePassword wCrypto c4State (some "pw") "" "" "now" anyCP).2.2
        = Except.error "Remote copies are enabled, but an email or username is missing from this wallet's encryption key."
    ∧ (changePassword wCrypto c4State (some "pw") "" "" "now" anyCP).2.2
        ≠ Except.error "wallet_modified: Can't change password, this wallet has a remote copy that has not been updated" := by
  decide

/-- C4 as amended: provided the call's email and username are
non-empty after trimming (so the weak-password guard passes, as the
specification's own ordering has it), an unlocked container with a
persisted ciphertext, `remote_copy = true` and a `remote_hash` that
differs from the pre-change local ciphertext hash makes
`changePassword` fail with `wallet_modified` and return the state
completely unchanged with no effects — no encryption and no mutation
of `wallet_object` or storage. -/
theorem C4_walletModified (C : Crypto) (st : WalletState)
    (password email username now : String) (resp : CPResponse)
    (pk : PrivateKey) (ew : B64)
    (hpk : st.private_key = some pk)
    (hew : st.storage.encrypted_wallet = some ew)
    (he : jsTrim email ≠ "")
    (hu : jsTrim username ≠ "")
    (hrc : st.storage.remote_copy = some true)
    (hmod : some ((localHash C st.storage).getD "") ≠ st.storage.remote_hash) :
    changePassword C st (some password) email username now resp
      = (st, [],
         Except.error "wallet_modified: Can't change password, this wallet has a remote copy that has not been updated") := by
  simp [changePassword, changePasswordGen, hpk, hew, he, hu, hrc, hmod]

/-- Witness for the amended C4 at concrete non-weak credentials. -/
theorem C4_witness :
    changePassword wCrypto c4State (some "pw") "a" "b" "now" anyCP
      = (c4State, [],
         Except.error "wallet_modified: Can't change password, this wallet has a remote copy that has not been updated") :=
  C4_walletModified wCrypto c4State "pw" "a" "b" "now" anyCP ⟨"old-seed"⟩ "W4"
    (by decide) (by decide) (by decide) (by decide) (by decide) (by decide)

/-- C5: at a concrete in-sync remote invocation the source's
`changePassword` stops with the `ReferenceError` on line 473's unbound
`old_private_key`: the outcome is that error, and the effect list
contains the local re-encryption but no transport `changePassword`
call at all — the handshake the claim (and the specification's stated
intent) describes never happens in the code as written. -/
theorem C5_code_behavior :
    (c5State.storage.remote_copy = some true
      ∧ c5State.hasApi = true
      ∧ some ((localHash wCrypto c5State.storage).getD "")
          = c5State.storage.remote_hash)
    ∧ (changePassword wCrypto c5State (some "pw2") "a" "b" "now" anyCP).2.2
        = Except.error "ReferenceError: old_private_key is not defined"
    ∧ (changePassword wCrypto c5State (some "pw2") "a" "b" "now" anyCP).2.1
        = [Effect.encryptW ("PUB:" ++ "a\tb\tpw2")] := by
  decide

/-- C3 at the failing input: under the specification's intended
binding for `old_private_key`, a change-password acknowledged `"OK"`
persists the response's `local_hash` unchecked, so the persisted
`remote_hash` (`BOGUS`) differs from the hash of the persisted
ciphertext — the claimed invariant fails for this server write; and in
the source as written the same invocation never completes at all (the
`ReferenceError` of line 473). -/
theorem C3_code_behavior :
    (changePasswordIntended wCrypto c5State (some "pw2") "a" "b" "now" c3Resp).2.2
        = Except.ok ()
  ∧ (changePasswordIntended wCrypto c5State (some "pw2") "a" "b" "now" c3Resp).1.storage.remote_hash
      ≠ ((changePasswordIntended wCrypto c5State (some "pw2") "a" "b" "now" c3Resp).1.storage.encrypted_wallet).map
          wCrypto.sha256b64
  ∧ (changePassword wCrypto c5State (some "pw2") "a" "b" "now" c3Resp).2.2
      = Except.error "ReferenceError: old_private_key is not defined" := by
  decide

/-- C6 at the failing input: under the specification's intended
binding for `old_private_key`, the `"OK"` response handler persists
`remote_hash := response.local_hash` as claimed, but writes the
response's `updated` timestamp under the storage key `remote_updated`
— `remote_updated_date`, the field the storage schema and every other
call site use, is left untouched.  (In the source as written the
handler is unreachable: the same call raises the line-473
`ReferenceError`.) -/
theorem C6_code_behavior :
    (changePasswordIntended wCrypto c5State (some "pw2") "a" "b" "now" c6Resp).2.2
        = Except.ok ()
  ∧ (changePasswordIntended wCrypto c5State (some "pw2") "a" "b" "now" c6Resp).1.storage.remote_hash
      = some "NH"
  ∧ (changePasswordIntended wCrypto c5State (some "pw2") "a" "b" "now" c6Resp).1.storage.remote_updated
      = some "2016-02-02"
  ∧ (changePasswordIntended wCrypto c5State (some "pw2") "a" "b" "now" c6Resp).1.storage.remote_updated_date
      = c5State.storage.remote_updated_date
  ∧ (changePassword wCrypto c5State (some "pw2") "a" "b" "now" c6Resp).2.2
      = Except.error "ReferenceError: old_private_key is not defined" := by
  decide

/-- Supporting lemma for the C3 analysis: for the two `updateWallet`
server writes the claimed invariant does hold — whenever the run
reaches the transport (transport present, `remote_copy = true`, not
the token-less No-Content early return) and succeeds, the persisted
`remote_hash` equals the hash of the persisted ciphertext, because
both the create path and the save path store the locally computed
hash after asserting the server echoed it. -/
theorem updateWallet_ok_remote_hash (C : Crypto) (st : WalletState)
    (pk? : Option PrivateKey) (cr : CreateResponse) (sr : SaveResponse)
    (r : WalletState × List Effect × Except String Unit)
    (hres : updateWallet C st pk? cr sr = r)
    (hapi : st.hasApi = true)
    (hrc : st.storage.remote_copy = some true)
    (hcall : ¬ (st.storage.remote_token = none ∧ st.remote_status = some "No Content"))
    (hok : r.2.2 = Except.ok ()) :
    r.1.storage.remote_hash = r.1.storage.encrypted_wallet.map C.sha256b64 := by
  simp only [updateWallet, hapi, hrc] at hres
  repeat' split at hres
  all_goals subst hres
  all_goals simp_all

/-- Witness-style instance of the save path for the supporting lemma:
a concrete acknowledged `"OK"` save run re-establishes the
invariant. -/
theorem updateWallet_ok_remote_hash_instance :
    (updateWallet wCrypto c5State none anyCR
        { statusText := "OK", local_hash := some "#E.PUB:old-seed",
          updated := some "2016-03-03" }).1.storage.remote_hash
      = ((updateWallet wCrypto c5State none anyCR
          { statusText := "OK", local_hash := some "#E.PUB:old-seed",
            updated := some "2016-03-03" }).1.storage.encrypted_wallet).map
          wCrypto.sha256b64 :=
  updateWallet_ok_remote_hash wCrypto c5State none anyCR
    { statusText := "OK", local_hash := some "#E.PUB:old-seed",
      updated := some "2016-03-03" } _ rfl (by decide) (by decide) (by decide)
    (by decide)

end WalletVerify
